import Mathlib

/-!
Shallow embedding of the response-validation and metrics-recording pipeline
of the K6 performance-test repository.

Embedded source files:
- `src/config/environments.ts` (constants `HTTP_STATUS`, `TEST_CONFIG`);
- `src/services/metrics.service.ts` (`MetricsService`);
- `src/services/logger.service.ts` (`LoggerService.error`);
- `src/services/validator.service.ts` (`ValidatorService.validateResponse`,
  `ValidatorService.validateErrorResponse`, `ValidatorService.logFailure`);
- the legacy helper module (`checkResponse`, `checkErrorResponse`), which
  declares k6 metrics with the same names (`errors`, `success`,
  `api_duration`, `failed_requests`), hence writes to the same series.

Modelling conventions:
- A JS string is a Lean `String`; `String.prototype.substring(0, n)` is
  `jsSubstring0` (take the first `n` characters).
- JS numbers used here (HTTP status, millisecond durations) are `Int`
  for statuses and `Rat` for durations; the claims only compare them,
  which is order-faithful.
- Effects (k6 check reporting, the four metric series, console logging)
  are threaded explicitly through a `K6State` record; each function of the
  source that has effects takes and returns a `K6State`.
- `JSON.parse` (a JS runtime builtin, not repository code) is embedded as
  the executable `jsonParse` below, returning `none` where `JSON.parse`
  throws; JS property access and truthiness are `jsField` and `jsTruthy`.
- The k6 runtime function `check(response, checksObject)` records one named
  result per key of the object, in insertion order, and returns `true` iff
  every predicate returned a truthy value; it is embedded as `k6.check`
  over an ordered list, with the truthiness coercion of each predicate
  result already applied (the predicates below return `Bool`).
-/

/-- A JavaScript value as produced by `JSON.parse`, extended with
`undefined` (the result of accessing an absent property). -/
inductive JsValue where
  | null
  | undefined
  | bool (b : Bool)
  | num (q : Rat)
  | str (s : String)
  | arr (elems : List JsValue)
  | obj (fields : List (String × JsValue))

/-- JS truthiness (`Boolean(v)`), restricted to the values `JSON.parse`
and property access can produce (no NaN: numbers are modelled as `Rat`). -/
def jsTruthy : JsValue → Bool
  | JsValue.null => false
  | JsValue.undefined => false
  | JsValue.bool b => b
  | JsValue.num q => q != 0
  | JsValue.str s => s != ""
  | JsValue.arr _ => true
  | JsValue.obj _ => true

/-- JS property access `v[k]`: throws a TypeError on `null`/`undefined`
(modelled as `Except.error`), looks the key up on objects, and yields
`undefined` on other primitives (which own no such property). -/
def jsField : JsValue → String → Except Unit JsValue
  | JsValue.null, _ => Except.error ()
  | JsValue.undefined, _ => Except.error ()
  | JsValue.obj fields, k =>
      Except.ok (match fields.lookup k with
        | some v => v
        | none => JsValue.undefined)
  | _, _ => Except.ok JsValue.undefined

/-- Skip JSON whitespace. -/
def jsonSkipWs : List Char → List Char
  | c :: cs =>
      if c = ' ' ∨ c = '\t' ∨ c = '\n' ∨ c = '\r' then jsonSkipWs cs else c :: cs
  | [] => []

/-- Value of a hexadecimal digit. -/
def hexDigitVal (c : Char) : Option Nat :=
  if '0' ≤ c ∧ c ≤ '9' then some (c.toNat - '0'.toNat)
  else if 'a' ≤ c ∧ c ≤ 'f' then some (c.toNat - 'a'.toNat + 10)
  else if 'A' ≤ c ∧ c ≤ 'F' then some (c.toNat - 'A'.toNat + 10)
  else none

/-- Parse the remainder of a JSON string literal (the opening quote already
consumed), accumulating characters in reverse. -/
def jsonStrAux : List Char → List Char → Option (String × List Char)
  | acc, '\"' :: cs => some (String.mk acc.reverse, cs)
  | acc, '\\' :: c :: cs =>
      match c with
      | '\"' => jsonStrAux ('\"' :: acc) cs
      | '\\' => jsonStrAux ('\\' :: acc) cs
      | '/' => jsonStrAux ('/' :: acc) cs
      | 'b' => jsonStrAux ('\x08' :: acc) cs
      | 'f' => jsonStrAux ('\x0c' :: acc) cs
      | 'n' => jsonStrAux ('\n' :: acc) cs
      | 'r' => jsonStrAux ('\r' :: acc) cs
      | 't' => jsonStrAux ('\t' :: acc) cs
      | 'u' =>
          match cs with
          | h1 :: h2 :: h3 :: h4 :: cs' =>
              match hexDigitVal h1, hexDigitVal h2, hexDigitVal h3, hexDigitVal h4 with
              | some a, some b, some c3, some d =>
                  jsonStrAux (Char.ofNat (((a * 16 + b) * 16 + c3) * 16 + d) :: acc) cs'
              | _, _, _, _ => none
          | _ => none
      | _ => none
  | acc, c :: cs =>
      if c = '\"' ∨ c = '\\' then none else jsonStrAux (c :: acc) cs
  | _, [] => none
termination_by _ cs => cs.length

/-- Split off a maximal run of decimal digits. -/
def jsonDigits : List Char → List Char × List Char
  | c :: cs =>
      if '0' ≤ c ∧ c ≤ '9' then
        let p := jsonDigits cs
        (c :: p.1, p.2)
      else ([], c :: cs)
  | [] => ([], [])

/-- Numeric value of a digit run. -/
def digitsToNat (ds : List Char) : Nat :=
  ds.foldl (fun acc c => acc * 10 + (c.toNat - '0'.toNat)) 0

/-- Parse a JSON number (grammar `-? int frac? exp?`, with the
no-leading-zero rule for the integer part). -/
def jsonNumber (cs : List Char) : Option (Rat × List Char) :=
  let (neg, cs1) := match cs with
    | '-' :: rest => (true, rest)
    | _ => (false, cs)
  let intPart := jsonDigits cs1
  match intPart.1 with
  | [] => none
  | d :: ds =>
      if d = '0' ∧ ds ≠ [] then none
      else
        let ipart : Nat := digitsToNat intPart.1
        let fracRes : Option (List Char × List Char) := match intPart.2 with
          | '.' :: rest =>
              let p := jsonDigits rest
              if p.1 = [] then none else some (p.1, p.2)
          | rest => some ([], rest)
        match fracRes with
        | none => none
        | some (fracDs, cs2) =>
          let mantissa : Rat := (ipart : Rat) + (digitsToNat fracDs : Rat) / ((10 : Rat) ^ fracDs.length)
          let parseExp : Option (Rat × List Char) :=
            match cs2 with
            | e :: rest =>
                if e = 'e' ∨ e = 'E' then
                  let (eneg, rest1) := match rest with
                    | '+' :: r => (false, r)
                    | '-' :: r => (true, r)
                    | r => (false, r)
                  let ep := jsonDigits rest1
                  match ep.1 with
                  | [] => none
                  | _ =>
                      let ev := digitsToNat ep.1
                      some (if eneg then mantissa / ((10 : Rat) ^ ev) else mantissa * ((10 : Rat) ^ ev), ep.2)
                else some (mantissa, cs2)
            | [] => some (mantissa, cs2)
          match parseExp with
          | none => none
          | some (v, rest) => some ((if neg then -v else v), rest)

mutual

/-- Fuel-indexed parser for one JSON value (leading whitespace allowed). -/
def jsonVal : Nat → List Char → Option (JsValue × List Char)
  | 0, _ => none
  | fuel + 1, cs =>
      match jsonSkipWs cs with
      | 'n' :: 'u' :: 'l' :: 'l' :: rest => some (JsValue.null, rest)
      | 't' :: 'r' :: 'u' :: 'e' :: rest => some (JsValue.bool true, rest)
      | 'f' :: 'a' :: 'l' :: 's' :: 'e' :: rest => some (JsValue.bool false, rest)
      | '\"' :: rest =>
          match jsonStrAux [] rest with
          | some (s, rest') => some (JsValue.str s, rest')
          | none => none
      | '\x5b' :: rest =>
          (match jsonSkipWs rest with
            | '\x5d' :: rest' => some (JsValue.arr [], rest')
            | _ =>
                match jsonElems fuel rest with
                | some (es, rest') => some (JsValue.arr es, rest')
                | none => none)
      | '\x7b' :: rest =>
          (match jsonSkipWs rest with
            | '\x7d' :: rest' => some (JsValue.obj [], rest')
            | _ =>
                match jsonMembers fuel rest with
                | some (fs, rest') => some (JsValue.obj fs, rest')
                | none => none)
      | cs' =>
          match jsonNumber cs' with
          | some (q, rest) => some (JsValue.num q, rest)
          | none => none

/-- Parse a nonempty comma-separated list of array elements and the
closing bracket. -/
def jsonElems : Nat → List Char → Option (List JsValue × List Char)
  | 0, _ => none
  | fuel + 1, cs =>
      match jsonVal fuel cs with
      | some (v, rest) =>
          (match jsonSkipWs rest with
            | ',' :: rest' =>
                (match jsonElems fuel rest' with
                  | some (vs, rest'') => some (v :: vs, rest'')
                  | none => none)
            | '\x5d' :: rest' => some ([v], rest')
            | _ => none)
      | none => none

/-- Parse a nonempty comma-separated list of object members and the
closing brace. -/
def jsonMembers : Nat → List Char → Option (List (String × JsValue) × List Char)
  | 0, _ => none
  | fuel + 1, cs =>
      match jsonSkipWs cs with
      | '\"' :: rest =>
          (match jsonStrAux [] rest with
            | some (k, rest1) =>
                (match jsonSkipWs rest1 with
                  | ':' :: rest2 =>
                      (match jsonVal fuel rest2 with
                        | some (v, rest3) =>
                            (match jsonSkipWs rest3 with
                              | ',' :: rest4 =>
                                  (match jsonMembers fuel rest4 with
                                    | some (fs, rest5) => some ((k, v) :: fs, rest5)
                                    | none => none)
                              | '\x7d' :: rest4 => some ([(k, v)], rest4)
                              | _ => none)
                        | none => none)
                  | _ => none)
            | none => none)
      | _ => none

end

/-- `JSON.parse`: parse one value, then require only whitespace to remain;
`none` where `JSON.parse` throws a SyntaxError. -/
def jsonParse (s : String) : Option JsValue :=
  match jsonVal (4 * s.length + 8) s.data with
  | some (v, rest) => if jsonSkipWs rest = [] then some v else none
  | none => none

/-- JS `String(x)` applied to a nullable string (`String(null) = "null"`). -/
def stringOfBody : Option String → String
  | none => "null"
  | some s => s

/-- JS `s.substring(0, n)`: the first `n` characters of `s`. -/
def jsSubstring0 (s : String) (n : Nat) : String :=
  String.mk (s.data.take n)

/-- `response.timings` of a k6 response (only `duration`, in ms, is used). -/
structure Timings where
  duration : Rat

/-- A k6 HTTP response as consumed by the validators: status code, nullable
body, timings. -/
structure K6Response where
  status : Int
  body : Option String
  timings : Timings

/-- The four k6 metric series fed by this pipeline: `Rate('errors')`,
`Rate('success')`, `Trend('api_duration')`, `Counter('failed_requests')`.
Rates and trends are append-only sample lists; the counter is a `Nat`. -/
structure MetricsState where
  errors : List Bool
  success : List Bool
  api_duration : List Rat
  failed_requests : Nat

/-- The embedded effect state: the metric series, the accumulated named
check results (k6 `check` reporting, in call order), and the console log
lines. -/
structure K6State where
  metrics : MetricsState
  checkReports : List (String × Bool)
  logLines : List String

/-- The empty state at the start of a run. -/
def K6State.init : K6State :=
  { metrics := { errors := [], success := [], api_duration := [], failed_requests := 0 },
    checkReports := [], logLines := [] }

/-- k6's `check(response, checks)`: evaluate each named predicate on the
response, record every named outcome, return the conjunction. -/
def k6.check (r : K6Response) (checks : List (String × (K6Response → Bool)))
    (s : K6State) : Bool × K6State :=
  let results := checks.map fun c => (c.1, c.2 r)
  (results.all fun c => c.2,
   { s with checkReports := s.checkReports ++ results })

/-- `HTTP_STATUS.OK` from `src/constants` (`environments.ts` chunk). -/
def HTTP_STATUS.OK : Int := 200

/-- `HTTP_STATUS.BAD_REQUEST` from `src/constants`. -/
def HTTP_STATUS.BAD_REQUEST : Int := 400

/-- `TEST_CONFIG.MAX_RESPONSE_TIME_MS` from `src/constants`. -/
def TEST_CONFIG.MAX_RESPONSE_TIME_MS : Nat := 500

/-- `TEST_CONFIG.LOG_BODY_PREVIEW_LENGTH` from `src/constants`. -/
def TEST_CONFIG.LOG_BODY_PREVIEW_LENGTH : Nat := 200

/-- `MetricsService.recordError`: `errorRate.add(isError)`. -/
def MetricsService.recordError (isError : Bool) (m : MetricsState) : MetricsState :=
  { m with errors := m.errors ++ [isError] }

/-- `MetricsService.recordSuccess`: `successRate.add(isSuccess)`. -/
def MetricsService.recordSuccess (isSuccess : Bool) (m : MetricsState) : MetricsState :=
  { m with success := m.success ++ [isSuccess] }

/-- `MetricsService.recordApiDuration`: `apiDuration.add(duration)`. -/
def MetricsService.recordApiDuration (duration : Rat) (m : MetricsState) : MetricsState :=
  { m with api_duration := m.api_duration ++ [duration] }

/-- `MetricsService.incrementFailedRequests`: `failedRequests.add(1)`. -/
def MetricsService.incrementFailedRequests (m : MetricsState) : MetricsState :=
  { m with failed_requests := m.failed_requests + 1 }

/-- `LoggerService.error(message, context)`: emits one line
`` `${contextStr} ❌ ${message}` `` where `contextStr` is `` ` [${context}]` ``
when a context is given, else empty. -/
def LoggerService.error (message : String) (context : Option String)
    (s : K6State) : K6State :=
  let contextStr := match context with
    | some c => " [" ++ c ++ "]"
    | none => ""
  { s with logLines := s.logLines ++ [contextStr ++ " ❌ " ++ message] }

/-- `JSON.parse` as a throwing step: `Except.error` where it throws. -/
def jsonParseE (s : String) : Except Unit JsValue :=
  match jsonParse s with
  | some v => Except.ok v
  | none => Except.error ()

/-- The un-caught body of the `has error message` predicate:
`JSON.parse(String(r.body))` followed by `body.error || body.message`;
either step may throw (modelled as `Except.error`). The JS disjunction
yields the first operand when it is truthy, else the second operand. -/
def errorOrMessageValue (bodyStr : String) : Except Unit JsValue := do
  let body ← jsonParseE bodyStr
  let e ← jsField body "error"
  if jsTruthy e then pure e else jsField body "message"

/-- The `has error message` predicate of `ValidatorService.validateErrorResponse`:
`try { return Boolean(body.error || body.message) } catch { return false }`. -/
def hasErrorMessage (bodyStr : String) : Bool :=
  match errorOrMessageValue bodyStr with
  | Except.ok v => jsTruthy v
  | Except.error _ => false

/-- The `has error message` predicate of the legacy `checkErrorResponse`:
`try { return body.error || body.message } catch (e) { return false }` —
the raw value, to be coerced to truthiness by k6's `check`. -/
def hasErrorMessageRaw (bodyStr : String) : JsValue :=
  match errorOrMessageValue bodyStr with
  | Except.ok v => v
  | Except.error _ => JsValue.bool false

/-- `ValidatorService.logFailure(testName, response)`: body preview is the
first `LOG_BODY_PREVIEW_LENGTH` characters when the body is truthy
(non-null, nonempty), else the text `No body`; emits one error log line
with context `Validation`. -/
def ValidatorService.logFailure (testName : String) (r : K6Response)
    (s : K6State) : K6State :=
  let bodyPreview := match r.body with
    | some b => if b = "" then "No body"
                else jsSubstring0 b TEST_CONFIG.LOG_BODY_PREVIEW_LENGTH
    | none => "No body"
  LoggerService.error
    (testName ++ " failed: Status " ++ toString r.status ++ ", Body: " ++ bodyPreview)
    (some "Validation") s

/-- `ValidatorService.validateResponse(response, testName, expectedStatus)`:
three named checks (status match, latency bound, non-empty body), metric
recording, and on failure the counter increment plus failure log. -/
def ValidatorService.validateResponse (r : K6Response) (testName : String)
    (expectedStatus : Int) (s : K6State) : Bool × K6State :=
  let checks : List (String × (K6Response → Bool)) := [
    (testName ++ ": status is " ++ toString expectedStatus,
      fun rr => rr.status == expectedStatus),
    (testName ++ ": response time < " ++ toString TEST_CONFIG.MAX_RESPONSE_TIME_MS ++ "ms",
      fun rr => decide (rr.timings.duration < (TEST_CONFIG.MAX_RESPONSE_TIME_MS : Rat))),
    (testName ++ ": response has body",
      fun rr => rr.body.isSome && decide (0 < (stringOfBody rr.body).length))]
  let res := k6.check r checks s
  let success := res.1
  let m1 := MetricsService.recordError (!success) res.2.metrics
  let m2 := MetricsService.recordSuccess success m1
  let m3 := MetricsService.recordApiDuration r.timings.duration m2
  let s1 := { res.2 with metrics := m3 }
  if success then (success, s1)
  else
    (success,
     ValidatorService.logFailure testName r
       { s1 with metrics := MetricsService.incrementFailedRequests s1.metrics })

/-- `ValidatorService.validateResponse` with the `expectedStatus` default
parameter (`HTTP_STATUS.OK`) applied. -/
def ValidatorService.validateResponseDefault (r : K6Response) (testName : String)
    (s : K6State) : Bool × K6State :=
  ValidatorService.validateResponse r testName HTTP_STATUS.OK s

/-- `ValidatorService.validateErrorResponse(response, testName, expectedStatus)`:
two named checks (status match, has error message), no other effect. -/
def ValidatorService.validateErrorResponse (r : K6Response) (testName : String)
    (expectedStatus : Int) (s : K6State) : Bool × K6State :=
  k6.check r [
    (testName ++ ": status is " ++ toString expectedStatus,
      fun rr => rr.status == expectedStatus),
    (testName ++ ": has error message",
      fun rr => hasErrorMessage (stringOfBody rr.body))] s

/-- `ValidatorService.validateErrorResponse` with the `expectedStatus`
default parameter (`HTTP_STATUS.BAD_REQUEST`) applied. -/
def ValidatorService.validateErrorResponseDefault (r : K6Response) (testName : String)
    (s : K6State) : Bool × K6State :=
  ValidatorService.validateErrorResponse r testName HTTP_STATUS.BAD_REQUEST s

/-- Legacy helper `checkResponse(response, testName, expectedStatus = 200)`:
same three checks with the literal threshold `500`, same metric updates,
failure log line emitted directly via `console.error` with a `❌ ` prefix
and no logger context. -/
def checkResponse (r : K6Response) (testName : String) (expectedStatus : Int)
    (s : K6State) : Bool × K6State :=
  let res := k6.check r [
    (testName ++ ": status is " ++ toString expectedStatus,
      fun rr => rr.status == expectedStatus),
    (testName ++ ": response time < 500ms",
      fun rr => decide (rr.timings.duration < (500 : Rat))),
    (testName ++ ": response has body",
      fun rr => rr.body.isSome && decide (0 < (stringOfBody rr.body).length))] s
  let success := res.1
  let m1 := MetricsService.recordError (!success) res.2.metrics
  let m2 := MetricsService.recordSuccess success m1
  let m3 := MetricsService.recordApiDuration r.timings.duration m2
  let s1 := { res.2 with metrics := m3 }
  if success then (success, s1)
  else
    let bodyPreview := match r.body with
      | some b => if b = "" then "No body" else jsSubstring0 b 200
      | none => "No body"
    (success,
     { s1 with
        metrics := MetricsService.incrementFailedRequests s1.metrics,
        logLines := s1.logLines ++
          ["❌ " ++ testName ++ " failed: Status " ++ toString r.status ++
           ", Body: " ++ bodyPreview] })

/-- Legacy helper `checkErrorResponse(response, testName, expectedStatus = 400)`:
the same two checks as `validateErrorResponse`, the second predicate
returning the raw `body.error || body.message` value coerced by k6. -/
def checkErrorResponse (r : K6Response) (testName : String) (expectedStatus : Int)
    (s : K6State) : Bool × K6State :=
  k6.check r [
    (testName ++ ": status is " ++ toString expectedStatus,
      fun rr => rr.status == expectedStatus),
    (testName ++ ": has error message",
      fun rr => jsTruthy (hasErrorMessageRaw (stringOfBody rr.body)))] s

/-- Spec-side predicate (§4.3 of the spec): the body, parsed as structured
data, contains a truthy `error` or `message` field; any non-object parse
result contains no such field. -/
def hasTruthyErrorOrMessageField : JsValue → Bool
  | JsValue.obj fields =>
      jsTruthy ((fields.lookup "error").getD JsValue.undefined) ||
      jsTruthy ((fields.lookup "message").getD JsValue.undefined)
  | _ => false

/-- The combined pass/fail outcome of the three happy-path criteria. -/
def vrSuccess (r : K6Response) (es : Int) : Bool :=
  (r.status == es) &&
    (decide (r.timings.duration < (500 : Rat)) &&
      (r.body.isSome && decide (0 < (stringOfBody r.body).length)))

/-- Body preview used by both failure loggers. -/
def bodyPreviewOf (r : K6Response) : String :=
  match r.body with
  | some b => if b = "" then "No body" else jsSubstring0 b 200
  | none => "No body"

/-- The failure message both loggers build (without the logger prefix). -/
def failMessage (t : String) (r : K6Response) : String :=
  t ++ " failed: Status " ++ toString r.status ++ ", Body: " ++ bodyPreviewOf r

/-- A 1000-character body used to exercise the preview truncation. -/
def longBody : String := String.mk (List.replicate 1000 'a')

set_option maxRecDepth 100000

theorem validateResponse_eq (r : K6Response) (t : String) (es : Int) (s : K6State) :
    ValidatorService.validateResponse r t es s =
      (vrSuccess r es,
       { metrics :=
          { errors := s.metrics.errors ++ [!vrSuccess r es],
            success := s.metrics.success ++ [vrSuccess r es],
            api_duration := s.metrics.api_duration ++ [r.timings.duration],
            failed_requests :=
              s.metrics.failed_requests + (if vrSuccess r es then 0 else 1) },
         checkReports := s.checkReports ++
           [(t ++ ": status is " ++ toString es, r.status == es),
            (t ++ ": response time < " ++ toString TEST_CONFIG.MAX_RESPONSE_TIME_MS ++ "ms",
              decide (r.timings.duration < (500 : Rat))),
            (t ++ ": response has body",
              r.body.isSome && decide (0 < (stringOfBody r.body).length))],
         logLines := s.logLines ++
           (if vrSuccess r es then []
            else [" [Validation] ❌ " ++ failMessage t r]) }) := by
  simp only [ValidatorService.validateResponse, k6.check, List.map, List.all,
    Bool.and_true, vrSuccess, ValidatorService.logFailure, LoggerService.error,
    MetricsService.recordError, MetricsService.recordSuccess,
    MetricsService.recordApiDuration, MetricsService.incrementFailedRequests,
    bodyPreviewOf, failMessage, TEST_CONFIG.MAX_RESPONSE_TIME_MS,
    TEST_CONFIG.LOG_BODY_PREVIEW_LENGTH, Nat.cast_ofNat]
  split
  · rename_i h
    simp only [h, if_true, Prod.mk.injEq, K6State.mk.injEq, MetricsState.mk.injEq,
      List.append_nil, Nat.add_zero]
  · rename_i h
    rw [Bool.not_eq_true] at h
    simp only [h, if_false, Prod.mk.injEq, K6State.mk.injEq, MetricsState.mk.injEq]
    simp [bodyPreviewOf, String.append_assoc]

theorem checkResponse_eq (r : K6Response) (t : String) (es : Int) (s : K6State) :
    checkResponse r t es s =
      (vrSuccess r es,
       { metrics :=
          { errors := s.metrics.errors ++ [!vrSuccess r es],
            success := s.metrics.success ++ [vrSuccess r es],
            api_duration := s.metrics.api_duration ++ [r.timings.duration],
            failed_requests :=
              s.metrics.failed_requests + (if vrSuccess r es then 0 else 1) },
         checkReports := s.checkReports ++
           [(t ++ ": status is " ++ toString es, r.status == es),
            (t ++ ": response time < 500ms",
              decide (r.timings.duration < (500 : Rat))),
            (t ++ ": response has body",
              r.body.isSome && decide (0 < (stringOfBody r.body).length))],
         logLines := s.logLines ++
           (if vrSuccess r es then []
            else ["❌ " ++ failMessage t r]) }) := by
  simp only [checkResponse, k6.check, List.map, List.all,
    Bool.and_true, vrSuccess, MetricsService.recordError, MetricsService.recordSuccess,
    MetricsService.recordApiDuration, MetricsService.incrementFailedRequests,
    bodyPreviewOf, failMessage]
  split
  · rename_i h
    simp only [h, if_true, Prod.mk.injEq, K6State.mk.injEq, MetricsState.mk.injEq,
      List.append_nil, Nat.add_zero]
  · rename_i h
    rw [Bool.not_eq_true] at h
    simp only [h, if_false, Prod.mk.injEq, K6State.mk.injEq, MetricsState.mk.injEq]
    simp [bodyPreviewOf, String.append_assoc]

theorem validateErrorResponse_eq (r : K6Response) (t : String) (es : Int) (s : K6State) :
    ValidatorService.validateErrorResponse r t es s =
      ((r.status == es) && hasErrorMessage (stringOfBody r.body),
       { s with checkReports := s.checkReports ++
          [(t ++ ": status is " ++ toString es, r.status == es),
           (t ++ ": has error message", hasErrorMessage (stringOfBody r.body))] }) := by
  simp [ValidatorService.validateErrorResponse, k6.check]

theorem hasErrorMessageRaw_truthy (bs : String) :
    jsTruthy (hasErrorMessageRaw bs) = hasErrorMessage bs := by
  unfold hasErrorMessageRaw hasErrorMessage
  cases errorOrMessageValue bs <;> simp [jsTruthy]

theorem checkErrorResponse_eq (r : K6Response) (t : String) (es : Int) (s : K6State) :
    checkErrorResponse r t es s = ValidatorService.validateErrorResponse r t es s := by
  simp [checkErrorResponse, ValidatorService.validateErrorResponse, hasErrorMessageRaw_truthy]

theorem except_bind_ok {α β : Type} (x : α) (f : α → Except Unit β) :
    (Except.ok x : Except Unit α) >>= f = f x := rfl

theorem except_pure {α : Type} (x : α) :
    (pure x : Except Unit α) = Except.ok x := rfl

theorem jsField_obj (fields : List (String × JsValue)) (k : String) :
    jsField (JsValue.obj fields) k =
      Except.ok ((fields.lookup k).getD JsValue.undefined) := by
  cases h : fields.lookup k <;> simp [jsField, h]

theorem errorOrMessageValue_none (bs : String) (h : jsonParse bs = none) :
    errorOrMessageValue bs = Except.error () := by
  unfold errorOrMessageValue jsonParseE
  rw [h]
  rfl

theorem errorOrMessageValue_some (bs : String) (v : JsValue) (h : jsonParse bs = some v) :
    errorOrMessageValue bs =
      (jsField v "error" >>= fun e =>
        if jsTruthy e then pure e else jsField v "message") := by
  unfold errorOrMessageValue jsonParseE
  rw [h]
  rfl

theorem string_pos_iff (s : String) : 0 < s.length ↔ s ≠ "" := by
  cases s with
  | mk data =>
      constructor
      · intro h he
        rw [he] at h
        simp [String.length] at h
      · intro h
        have hd : data ≠ [] := by
          intro hd
          exact h (by rw [hd])
        simpa [String.length, List.length_pos] using hd

theorem hasErrorMessage_iff (bs : String) :
    hasErrorMessage bs = true ↔
      ∃ v, jsonParse bs = some v ∧ hasTruthyErrorOrMessageField v = true := by
  unfold hasErrorMessage
  cases h : jsonParse bs with
  | none =>
      rw [errorOrMessageValue_none bs h]
      simp
  | some v =>
      rw [errorOrMessageValue_some bs v h]
      cases v with
      | obj fields =>
          rw [jsField_obj, jsField_obj, except_bind_ok]
          cases hE : jsTruthy ((fields.lookup "error").getD JsValue.undefined) with
          | true => simp [hE, except_pure, hasTruthyErrorOrMessageField]
          | false => simp [hE, hasTruthyErrorOrMessageField]
      | null =>
          simp only [hasTruthyErrorOrMessageField]
          simp
          rfl
      | undefined =>
          simp only [hasTruthyErrorOrMessageField]
          simp
          rfl
      | bool b =>
          simp only [hasTruthyErrorOrMessageField]
          simp
          rfl
      | num q =>
          simp only [hasTruthyErrorOrMessageField]
          simp
          rfl
      | str s2 =>
          simp only [hasTruthyErrorOrMessageField]
          simp
          rfl
      | arr xs =>
          simp only [hasTruthyErrorOrMessageField]
          simp
          rfl

theorem maxRespTime_cast : ((TEST_CONFIG.MAX_RESPONSE_TIME_MS : Nat) : Rat) = (500 : Rat) := by
  simp [TEST_CONFIG.MAX_RESPONSE_TIME_MS]

theorem vrSuccess_iff (r : K6Response) (es : Int) :
    vrSuccess r es = true ↔
      (r.status = es ∧ r.timings.duration < (500 : Rat) ∧
        ∃ bs, r.body = some bs ∧ bs ≠ "") := by
  unfold vrSuccess
  cases hb : r.body with
  | none => simp [hb, stringOfBody]
  | some bs => simp [hb, stringOfBody, string_pos_iff]

theorem timeCheckName500 (t : String) :
    t ++ ": response time < " ++ toString TEST_CONFIG.MAX_RESPONSE_TIME_MS ++ "ms" =
      t ++ ": response time < 500ms" := by
  simp only [String.append_assoc]
  congr 1

/-- C1: a response whose status equals the expected status, whose
`timings.duration` is strictly below `TEST_CONFIG.MAX_RESPONSE_TIME_MS`
(500 ms), and whose body is neither null nor the empty string makes
`ValidatorService.validateResponse` return `true` and leaves the
failed-request counter unchanged. -/
theorem C1_validateResponse_pass (r : K6Response) (t : String) (es : Int) (s : K6State)
    (hst : r.status = es)
    (hdur : r.timings.duration < (TEST_CONFIG.MAX_RESPONSE_TIME_MS : Rat))
    (hbody : ∃ bs, r.body = some bs ∧ bs ≠ "") :
    (ValidatorService.validateResponse r t es s).1 = true ∧
      (ValidatorService.validateResponse r t es s).2.metrics.failed_requests =
        s.metrics.failed_requests := by
  have hs : vrSuccess r es = true := by
    rw [vrSuccess_iff]
    exact ⟨hst, by simpa [maxRespTime_cast] using hdur, hbody⟩
  rw [validateResponse_eq]
  simp [hs]

/-- C1 witness: a concrete passing response (status 200, 120 ms, body
`ok`) satisfies the hypotheses and the conclusion of `C1_validateResponse_pass`. -/
theorem C1_witness :
    ((⟨200, some "ok", ⟨120⟩⟩ : K6Response).status = (200 : Int) ∧
     (⟨200, some "ok", ⟨120⟩⟩ : K6Response).timings.duration < (TEST_CONFIG.MAX_RESPONSE_TIME_MS : Rat) ∧
     (∃ bs, (⟨200, some "ok", ⟨120⟩⟩ : K6Response).body = some bs ∧ bs ≠ "")) ∧
    ((ValidatorService.validateResponse ⟨200, some "ok", ⟨120⟩⟩ "login" 200 K6State.init).1 = true ∧
      (ValidatorService.validateResponse ⟨200, some "ok", ⟨120⟩⟩ "login" 200 K6State.init).2.metrics.failed_requests =
        K6State.init.metrics.failed_requests) :=
  ⟨⟨rfl, by rw [maxRespTime_cast]; norm_num, ⟨"ok", rfl, by decide⟩⟩,
   C1_validateResponse_pass ⟨200, some "ok", ⟨120⟩⟩ "login" 200 K6State.init rfl
     (by rw [maxRespTime_cast]; norm_num) ⟨"ok", rfl, by decide⟩⟩

/-- C2: a response for which at least one of the three criteria fails makes
`ValidatorService.validateResponse` return `false`, increments the
failed-request counter by exactly one, and appends exactly one failure log
line containing the supplied test name. -/
theorem C2_validateResponse_fail (r : K6Response) (t : String) (es : Int) (s : K6State)
    (h : ¬(r.status = es ∧ r.timings.duration < (TEST_CONFIG.MAX_RESPONSE_TIME_MS : Rat) ∧
          ∃ bs, r.body = some bs ∧ bs ≠ "")) :
    (ValidatorService.validateResponse r t es s).1 = false ∧
      (ValidatorService.validateResponse r t es s).2.metrics.failed_requests =
        s.metrics.failed_requests + 1 ∧
      ∃ post, (ValidatorService.validateResponse r t es s).2.logLines =
        s.logLines ++ [" [Validation] ❌ " ++ (t ++ post)] := by
  have hs : vrSuccess r es = false := by
    cases hvs : vrSuccess r es with
    | false => rfl
    | true =>
        exfalso
        rw [vrSuccess_iff] at hvs
        exact h ⟨hvs.1, by simpa [maxRespTime_cast] using hvs.2.1, hvs.2.2⟩
  rw [validateResponse_eq]
  refine ⟨by simp [hs], by simp [hs], ?_⟩
  refine ⟨" failed: Status " ++ toString r.status ++ ", Body: " ++ bodyPreviewOf r, ?_⟩
  simp [hs, failMessage, String.append_assoc]

/-- C2 witness: a concrete failing response (status 404 against expected
200, empty body) satisfies the hypothesis and the conclusion of
`C2_validateResponse_fail`. -/
theorem C2_witness :
    (¬((⟨404, some "", ⟨50⟩⟩ : K6Response).status = (200 : Int) ∧
        (⟨404, some "", ⟨50⟩⟩ : K6Response).timings.duration < (TEST_CONFIG.MAX_RESPONSE_TIME_MS : Rat) ∧
        ∃ bs, (⟨404, some "", ⟨50⟩⟩ : K6Response).body = some bs ∧ bs ≠ "")) ∧
    ((ValidatorService.validateResponse ⟨404, some "", ⟨50⟩⟩ "getContact" 200 K6State.init).1 = false ∧
      (ValidatorService.validateResponse ⟨404, some "", ⟨50⟩⟩ "getContact" 200 K6State.init).2.metrics.failed_requests =
        K6State.init.metrics.failed_requests + 1 ∧
      ∃ post, (ValidatorService.validateResponse ⟨404, some "", ⟨50⟩⟩ "getContact" 200 K6State.init).2.logLines =
        K6State.init.logLines ++ [" [Validation] ❌ " ++ ("getContact" ++ post)]) :=
  ⟨fun hc => absurd hc.1 (by decide),
   C2_validateResponse_fail ⟨404, some "", ⟨50⟩⟩ "getContact" 200 K6State.init
     (fun hc => absurd hc.1 (by decide))⟩

/-- C3: `ValidatorService.validateErrorResponse` returns `true` iff the
status equals the expected status and the body, parsed as JSON, contains a
truthy `error` or `message` field; in particular the unparsable body
`not json` yields `false` (the second check is `false`, nothing is thrown). -/
theorem C3_validateErrorResponse_iff :
    (∀ (r : K6Response) (t : String) (es : Int) (s : K6State),
      ((ValidatorService.validateErrorResponse r t es s).1 = true ↔
        (r.status = es ∧ ∃ v, jsonParse (stringOfBody r.body) = some v ∧
          hasTruthyErrorOrMessageField v = true))) ∧
    (∀ (t : String) (es : Int) (d : Rat) (s : K6State),
      (ValidatorService.validateErrorResponse ⟨es, some "not json", ⟨d⟩⟩ t es s).1 = false) := by
  constructor
  · intro r t es s
    rw [validateErrorResponse_eq]
    simp [hasErrorMessage_iff]
  · intro t es d s
    rw [validateErrorResponse_eq]
    have hne : hasErrorMessage (stringOfBody (some "not json")) = false := by decide
    simp [hne]

/-- C4: every `validateResponse` call appends exactly one sample to the
error-rate series and one to the success-rate series, with complementary
booleans (the negated outcome, then the outcome). -/
theorem C4_metrics_complementary (r : K6Response) (t : String) (es : Int) (s : K6State) :
    (ValidatorService.validateResponse r t es s).2.metrics.errors =
      s.metrics.errors ++ [!(ValidatorService.validateResponse r t es s).1] ∧
    (ValidatorService.validateResponse r t es s).2.metrics.success =
      s.metrics.success ++ [(ValidatorService.validateResponse r t es s).1] := by
  rw [validateResponse_eq]
  simp

/-- C5: both validators are total — they return a boolean and a state for
every input; the un-caught inner computation of the error-message check
does throw on an unparsable or null body, and the catch turns exactly those
throws into a failed check. -/
theorem C5_no_throw (r : K6Response) (t : String) (es : Int) (s : K6State) :
    (∃ b s', ValidatorService.validateResponse r t es s = (b, s')) ∧
    (∃ b s', ValidatorService.validateErrorResponse r t es s = (b, s')) ∧
    errorOrMessageValue "not json" = Except.error () ∧
    errorOrMessageValue (stringOfBody none) = Except.error () ∧
    hasErrorMessage "not json" = false ∧
    hasErrorMessage (stringOfBody none) = false :=
  ⟨⟨_, _, rfl⟩, ⟨_, _, rfl⟩, rfl, rfl, rfl, rfl⟩

/-- C6: `validateErrorResponse` leaves the metric series and the log
unchanged; its only effects are appending its two named check results, and
its return value is their conjunction. -/
theorem C6_validateErrorResponse_frame (r : K6Response) (t : String) (es : Int) (s : K6State) :
    (ValidatorService.validateErrorResponse r t es s).2.metrics = s.metrics ∧
    (ValidatorService.validateErrorResponse r t es s).2.logLines = s.logLines ∧
    (ValidatorService.validateErrorResponse r t es s).2.checkReports =
      s.checkReports ++
        [(t ++ ": status is " ++ toString es, r.status == es),
         (t ++ ": has error message", hasErrorMessage (stringOfBody r.body))] ∧
    (ValidatorService.validateErrorResponse r t es s).1 =
      ((r.status == es) && hasErrorMessage (stringOfBody r.body)) := by
  rw [validateErrorResponse_eq]
  exact ⟨rfl, rfl, rfl, rfl⟩

/-- C7: when `validateResponse` fails on a response whose body has at least
`TEST_CONFIG.LOG_BODY_PREVIEW_LENGTH` (200) characters, the single failure
log line carries a preview that is exactly the first 200 characters of the
body. -/
theorem C7_body_preview (r : K6Response) (t : String) (es : Int) (s : K6State) (bs : String)
    (hfail : (ValidatorService.validateResponse r t es s).1 = false)
    (hb : r.body = some bs)
    (hlen : TEST_CONFIG.LOG_BODY_PREVIEW_LENGTH ≤ bs.length) :
    (ValidatorService.validateResponse r t es s).2.logLines =
      s.logLines ++
        [" [Validation] ❌ " ++
          (t ++ " failed: Status " ++ toString r.status ++ ", Body: " ++
            jsSubstring0 bs TEST_CONFIG.LOG_BODY_PREVIEW_LENGTH)] ∧
    (jsSubstring0 bs TEST_CONFIG.LOG_BODY_PREVIEW_LENGTH).length =
      TEST_CONFIG.LOG_BODY_PREVIEW_LENGTH := by
  have hs : vrSuccess r es = false := by
    rw [validateResponse_eq] at hfail
    exact hfail
  have hne : bs ≠ "" := by
    rw [← string_pos_iff]
    have h200 : 0 < TEST_CONFIG.LOG_BODY_PREVIEW_LENGTH := by
      simp [TEST_CONFIG.LOG_BODY_PREVIEW_LENGTH]
    exact lt_of_lt_of_le h200 hlen
  constructor
  · rw [validateResponse_eq]
    simp only [hs, if_false, Bool.false_eq_true]
    simp [failMessage, bodyPreviewOf, hb, hne, TEST_CONFIG.LOG_BODY_PREVIEW_LENGTH,
      String.append_assoc]
  · have hmin : (jsSubstring0 bs TEST_CONFIG.LOG_BODY_PREVIEW_LENGTH).length =
        min TEST_CONFIG.LOG_BODY_PREVIEW_LENGTH bs.length := by
      show (bs.data.take TEST_CONFIG.LOG_BODY_PREVIEW_LENGTH).length = _
      rw [List.length_take]
      rfl
    rw [hmin, min_eq_left hlen]

/-- C7 witness: a concrete failing response carrying the 1000-character
body satisfies the hypotheses and the conclusion of `C7_body_preview`. -/
theorem C7_witness :
    ((ValidatorService.validateResponse ⟨500, some longBody, ⟨50⟩⟩ "bigBody" 200 K6State.init).1 = false ∧
     (⟨500, some longBody, ⟨50⟩⟩ : K6Response).body = some longBody ∧
     TEST_CONFIG.LOG_BODY_PREVIEW_LENGTH ≤ longBody.length) ∧
    ((ValidatorService.validateResponse ⟨500, some longBody, ⟨50⟩⟩ "bigBody" 200 K6State.init).2.logLines =
      K6State.init.logLines ++
        [" [Validation] ❌ " ++
          ("bigBody" ++ " failed: Status " ++ toString (500 : Int) ++ ", Body: " ++
            jsSubstring0 longBody TEST_CONFIG.LOG_BODY_PREVIEW_LENGTH)] ∧
     (jsSubstring0 longBody TEST_CONFIG.LOG_BODY_PREVIEW_LENGTH).length =
       TEST_CONFIG.LOG_BODY_PREVIEW_LENGTH) :=
  ⟨⟨by decide, rfl, by decide⟩,
   C7_body_preview ⟨500, some longBody, ⟨50⟩⟩ "bigBody" 200 K6State.init longBody
     (by decide) rfl (by decide)⟩

/-- C8: with the `expectedStatus` argument omitted, `validateResponse`
validates against `HTTP_STATUS.OK` (200) and `validateErrorResponse`
against `HTTP_STATUS.BAD_REQUEST` (400). -/
theorem C8_default_statuses (r : K6Response) (t : String) (s : K6State) :
    ValidatorService.validateResponseDefault r t s =
      ValidatorService.validateResponse r t HTTP_STATUS.OK s ∧
    ValidatorService.validateErrorResponseDefault r t s =
      ValidatorService.validateErrorResponse r t HTTP_STATUS.BAD_REQUEST s ∧
    HTTP_STATUS.OK = 200 ∧ HTTP_STATUS.BAD_REQUEST = 400 :=
  ⟨rfl, rfl, rfl, rfl⟩

/-- C9 counterexample: on a failing response, the second of two identical
`validateResponse` calls emits a further failure log line, so state other
than the Metrics Recorder's series does change. -/
theorem C9_counterexample :
    ¬((ValidatorService.validateResponse ⟨404, some "", ⟨50⟩⟩ "t" 200
          ((ValidatorService.validateResponse ⟨404, some "", ⟨50⟩⟩ "t" 200 K6State.init).2)).2.logLines =
        ((ValidatorService.validateResponse ⟨404, some "", ⟨50⟩⟩ "t" 200 K6State.init).2).logLines) := by
  decide

/-- C9 (amended): two successive `validateResponse` calls with the same
arguments return the same boolean, and the outcome does not depend on the
incoming state at all; the calls do additionally append check reports and,
on failure, a log line. -/
theorem C9_outcome_pure :
    (∀ (r : K6Response) (t : String) (es : Int) (s1 s2 : K6State),
      (ValidatorService.validateResponse r t es s1).1 =
        (ValidatorService.validateResponse r t es s2).1) ∧
    (∀ (r : K6Response) (t : String) (es : Int) (s : K6State),
      (ValidatorService.validateResponse r t es
          ((ValidatorService.validateResponse r t es s).2)).1 =
        (ValidatorService.validateResponse r t es s).1) := by
  constructor <;> intros <;> simp [validateResponse_eq]

/-- C10 counterexample: on a concrete failing response the two failure log
lines differ (the service line carries the ` [Validation] ` logger prefix,
the legacy line a bare `❌ ` prefix), so the log content is not the same. -/
theorem C10_counterexample :
    ¬((ValidatorService.validateResponse ⟨404, some "abc", ⟨50⟩⟩ "t" 200 K6State.init).2.logLines =
        (checkResponse ⟨404, some "abc", ⟨50⟩⟩ "t" 200 K6State.init).2.logLines) := by
  decide

/-- C10 (amended): the legacy helpers agree with the service methods on the
returned boolean, the metric updates, and the named check results; the
failure log lines carry the same message after their differing prefixes
(` [Validation] ❌ ` versus `❌ `), and `checkErrorResponse` coincides with
`validateErrorResponse` exactly. -/
theorem C10_legacy_equivalence :
    (∀ (r : K6Response) (t : String) (es : Int) (s : K6State),
      (ValidatorService.validateResponse r t es s).1 = (checkResponse r t es s).1 ∧
      (ValidatorService.validateResponse r t es s).2.metrics =
        (checkResponse r t es s).2.metrics ∧
      (ValidatorService.validateResponse r t es s).2.checkReports =
        (checkResponse r t es s).2.checkReports ∧
      ∃ suffix : List String,
        (ValidatorService.validateResponse r t es s).2.logLines =
          s.logLines ++ suffix.map (fun m => " [Validation] ❌ " ++ m) ∧
        (checkResponse r t es s).2.logLines =
          s.logLines ++ suffix.map (fun m => "❌ " ++ m)) ∧
    (∀ (r : K6Response) (t : String) (es : Int) (s : K6State),
      ValidatorService.validateErrorResponse r t es s = checkErrorResponse r t es s) := by
  constructor
  · intro r t es s
    rw [validateResponse_eq, checkResponse_eq]
    refine ⟨rfl, rfl, ?_, ?_⟩
    · simp [timeCheckName500]
    · cases hs : vrSuccess r es with
      | true => exact ⟨[], by simp [hs], by simp [hs]⟩
      | false => exact ⟨[failMessage t r], by simp [hs], by simp [hs]⟩
  · intro r t es s
    exact (checkErrorResponse_eq r t es s).symm
